import Mathlib

/-!
Shallow embedding of the Spam-Detection-Discord-Bot moderation core:
the message pipeline (`src/cogs/moderation.py`, `ModerationCog`), the
CSV dataset store (`src/utils/dataset_logger.py`, `DatasetLogger`) and
the statistics tracker (`src/utils/stats_tracker.py`, `StatsTracker`).

External collaborators (the Discord client, the scam detector, the file
system clock) are modelled as parameters: the detector verdict, the
outcomes of platform calls and the current wall-clock reading are inputs,
and the pipeline is a pure function from a message event and such an
environment to the list of external calls it performs, in order.
Timestamps that the source formats with `strftime` are carried as opaque
strings; Python floats are modelled as rationals.
-/

namespace SpamBot

/-- Outcome of a platform call that the source wraps in try/except:
success, `discord.errors.Forbidden`, or any other exception. -/
inductive CallOutcome where
  | ok
  | forbidden
  | err
deriving DecidableEq, Repr

/-- Role names and join date available when `message.author` is a
`discord.Member`; `joined_at` is the formatted join time, `none` when
`member.joined_at` is `None`. -/
structure MemberInfo where
  roles : List String
  joined_at : Option String
deriving DecidableEq, Repr

/-- The fields of a `discord.Message` that the moderation cog reads.
`member` is `some` exactly when `isinstance(message.author, discord.Member)`;
`guild` is the id and name of `message.guild` when present (`None` in DMs);
`channel_name` is `some` when the channel has a `name` attribute;
`created_at_local` is `message.created_at` rendered in the local zone. -/
structure Message where
  author_bot : Bool
  content : String
  member : Option MemberInfo
  author_id : Nat
  author_name : String
  author_discriminator : String
  guild : Option (Nat × String)
  channel_id : Nat
  channel_name : Option String
  message_id : Nat
  created_at_local : String
deriving DecidableEq, Repr

/-- One data row of `data/flagged_messages_dataset.csv`, as assembled by
`DatasetLogger.log_flagged_message`.  `confidence` keeps the rational
value; the source serializes it with four decimal places. -/
structure FlaggedRow where
  timestamp : String
  user_id : String
  username : String
  user_discriminator : String
  guild_id : String
  guild_name : String
  channel_id : String
  channel_name : String
  message_content : String
  confidence : ℚ
  detection_reason : String
  user_joined_at : String
  message_id : String
deriving DecidableEq, Repr

/-- The audit embed sent to the log channel by `ModerationCog._send_log`:
user identity, join date, detection method, confidence, channel,
the two timestamps, the truncated content excerpt, and whether the
moderator role was found and pinged. -/
structure AuditEntry where
  user_id : Nat
  user_name : String
  user_discriminator : String
  joined_at : String
  detection_method : String
  confidence : ℚ
  channel_id : Nat
  message_sent : String
  detected_at : String
  content_excerpt : String
  ping_moderator : Bool
deriving DecidableEq, Repr

/-- External calls the pipeline performs, in program order: the
`scam_detector.detect` invocation, the `log_flagged_message` append,
the `message.delete()` call, the `member.send` DM and the
`log_channel.send` audit message. -/
inductive Event where
  | detectCall (text : String)
  | datasetAppend (row : FlaggedRow)
  | deleteCall (message_id : Nat)
  | dmSend (guild_name : String)
  | auditSend (entry : AuditEntry)
deriving DecidableEq, Repr

/-- The environment a single `on_message` run observes: the command
prefix, the detector result (`Except` models a raised exception), the
outcomes of the delete and DM platform calls, whether
`bot.get_channel(Config.LOG_CHANNEL_ID)` and
`guild.get_role(Config.MODERATOR_ROLE_ID)` resolve, and the current
formatted wall-clock time. -/
structure Env where
  commandPrefix : String
  detOutcome : Except String (Bool × ℚ × String)
  deleteOutcome : CallOutcome
  dmOutcome : CallOutcome
  logChannelFound : Bool
  modRoleFound : Bool
  now : String
deriving Repr

/-- The whitelist configured in `ModerationCog.__init__`. -/
def whitelisted_roles : List String :=
  ["Admin", "Moderator", "executive", "chat revive ping"]

/-- Model of the Python `str.startswith` test used for the
command-prefix check: a character-level prefix test. -/
def startswith (s pre : String) : Bool := pre.data.isPrefixOf s.data

/-- The whitelist test of `on_message`: when the author is a guild member,
`any(role in self.whitelisted_roles for role in user_roles)`; a non-member
author skips the check. -/
def has_whitelisted_role (msg : Message) : Bool :=
  match msg.member with
  | some m => m.roles.any (fun r => whitelisted_roles.contains r)
  | none => false

/-- Join date string used by `_handle_scam_message`: the formatted
`member.joined_at` when the author is a member with a join time,
otherwise the sentinel `"Unknown"`. -/
def joined_at_of (msg : Message) : String :=
  match msg.member with
  | some m => m.joined_at.getD "Unknown"
  | none => "Unknown"

/-- The CSV row built by `DatasetLogger.log_flagged_message`. -/
def buildRow (env : Env) (msg : Message) (confidence : ℚ) (reason : String)
    (user_joined_at : String) : FlaggedRow :=
  { timestamp := env.now
    user_id := toString msg.author_id
    username := msg.author_name
    user_discriminator := msg.author_discriminator
    guild_id := match msg.guild with | some (i, _) => toString i | none => "DM"
    guild_name := match msg.guild with | some (_, n) => n | none => "DM"
    channel_id := toString msg.channel_id
    channel_name := msg.channel_name.getD "Unknown"
    message_content := msg.content
    confidence := confidence
    detection_reason := reason
    user_joined_at := user_joined_at
    message_id := toString msg.message_id }

/-- The audit embed content built inside `_send_log`; the excerpt is
`message.content[:1024]` or the `"*No content*"` placeholder for an
empty message, and `ping_moderator` records whether the moderator role
resolved. -/
def buildAuditEntry (env : Env) (msg : Message) (joined_at : String)
    (confidence : ℚ) (reason : String) : AuditEntry :=
  { user_id := msg.author_id
    user_name := msg.author_name
    user_discriminator := msg.author_discriminator
    joined_at := joined_at
    detection_method := reason
    confidence := confidence
    channel_id := msg.channel_id
    message_sent := msg.created_at_local
    detected_at := env.now
    content_excerpt := if msg.content = "" then "*No content*" else msg.content.take 1024
    ping_moderator := env.modRoleFound }

/-- Model of `ModerationCog._send_user_notification`.  The DM embed
dereferences `guild.name`, so a missing guild raises inside the try
block before `member.send` and is swallowed; otherwise the send is
attempted, and both `Forbidden` and any other failure are caught and
logged, so the call event is recorded regardless of outcome. -/
def send_user_notification (env : Env) (msg : Message) : List Event :=
  match msg.guild with
  | none => []
  | some (_, gname) =>
    match env.dmOutcome with
    | .ok => [Event.dmSend gname]
    | .forbidden => [Event.dmSend gname]
    | .err => [Event.dmSend gname]

/-- Model of `ModerationCog._send_log`.  If the log channel does not
resolve, the method logs an error and returns.  With no guild the try
block raises at `message.channel.mention` / `guild.get_role` and is
caught, so nothing is sent.  Otherwise one audit message is sent
(a failure of the send itself is caught after the call). -/
def send_log (env : Env) (msg : Message) (joined_at : String)
    (confidence : ℚ) (reason : String) : List Event :=
  if env.logChannelFound then
    match msg.guild with
    | none => []
    | some _ => [Event.auditSend (buildAuditEntry env msg joined_at confidence reason)]
  else []

/-- Model of `ModerationCog._handle_scam_message`: append to the CSV
dataset, then attempt the delete; a `Forbidden` or any other deletion
error returns early, otherwise the DM notification and the audit log
follow. -/
def handle_scam_message (env : Env) (msg : Message) (confidence : ℚ)
    (reason : String) : List Event :=
  let joined_at := joined_at_of msg
  Event.datasetAppend (buildRow env msg confidence reason joined_at) ::
  Event.deleteCall msg.message_id ::
  match env.deleteOutcome with
  | .forbidden => []
  | .err => []
  | .ok =>
      send_user_notification env msg ++ send_log env msg joined_at confidence reason

/-- Model of `ModerationCog.on_message`: ignore bot authors, command
invocations and whitelisted authors; then invoke the detector inside a
try block — a raised detector error is caught and logged, a negative
verdict does nothing further, a positive verdict runs
`_handle_scam_message`. -/
def on_message (env : Env) (msg : Message) : List Event :=
  if msg.author_bot then []
  else if startswith msg.content env.commandPrefix then []
  else if has_whitelisted_role msg then []
  else
    Event.detectCall msg.content ::
    match env.detOutcome with
    | .error _ => []
    | .ok (is_scam, confidence, reason) =>
        if is_scam then handle_scam_message env msg confidence reason else []

/-! ### Dataset store (`src/utils/dataset_logger.py`)

The CSV file is modelled as `Option (List FlaggedRow)`: `none` when
`data/flagged_messages_dataset.csv` does not exist, `some rows` for a
file holding the header line plus `rows`.  Byte-level size
(`file_size`) is not modelled.  The source catches I/O errors around
every file operation; the model covers the successful path. -/

/-- Model of `DatasetLogger._initialize_csv`: create the file with the
header row (and no data rows) when absent, leave an existing file
untouched. -/
def initialize_csv (file : Option (List FlaggedRow)) : Option (List FlaggedRow) :=
  match file with
  | some rows => some rows
  | none => some []

/-- Model of `DatasetLogger.log_flagged_message`: build the row from the
message, confidence, reason and join date, and append it to the file
(append mode creates a missing file). -/
def log_flagged_message (file : Option (List FlaggedRow)) (env : Env)
    (msg : Message) (confidence : ℚ) (reason : String)
    (user_joined_at : String) : Option (List FlaggedRow) :=
  some (file.getD [] ++ [buildRow env msg confidence reason user_joined_at])

/-- Result of `DatasetLogger.get_dataset_stats` (the `exists` key of the
source dictionary is spelled `file_present`; `file_size` and
`file_path` are not modelled). -/
structure DatasetStats where
  file_present : Bool
  total_messages : Nat
  detection_methods : List (String × Nat)
deriving DecidableEq, Repr

/-- One step of the detection-method tally of `get_dataset_stats`:
`detection_methods[method] = detection_methods.get(method, 0) + 1`,
on an insertion-ordered association list like a Python dict. -/
def bumpCount : List (String × Nat) → String → List (String × Nat)
  | [], k => [(k, 1)]
  | (k', v) :: rest, k =>
      if k' = k then (k', v + 1) :: rest else (k', v) :: bumpCount rest k

/-- The detection-method breakdown of `get_dataset_stats`: fold the
tally over the data rows, keyed by the `detection_reason` column. -/
def detectionMethodBreakdown (rows : List FlaggedRow) : List (String × Nat) :=
  rows.foldl (fun m r => bumpCount m r.detection_reason) []

/-- Model of `DatasetLogger.get_dataset_stats`: a missing file reports
absence and zero counts, an existing file reports the data-row count
and the detection-method breakdown. -/
def get_dataset_stats (file : Option (List FlaggedRow)) : DatasetStats :=
  match file with
  | none => { file_present := false, total_messages := 0, detection_methods := [] }
  | some rows =>
      { file_present := true
        total_messages := rows.length
        detection_methods := detectionMethodBreakdown rows }

/-! ### Stats tracker (`src/utils/stats_tracker.py`)

`data/bot_stats.json` is modelled as `Option OverallStats` (`none` when
absent).  Wall-clock readings used only for formatting are opaque
strings; the session start time and `datetime.now` used by
`get_session_messages_per_hour` are rationals counting seconds.
The try/except around each file operation is modelled by an `ioOk`
flag: when false the file is left as it was and the in-memory state is
used as the fallback, as the source's except branches do. -/

/-- The persistent record of `data/bot_stats.json`. -/
structure OverallStats where
  total_messages_analyzed : Nat
  total_messages_flagged : Nat
  total_false_alarms : Nat
  first_started : String
  last_updated : String
deriving DecidableEq, Repr

/-- The fresh record `_load_overall_stats` creates when the stats file
is absent or unreadable: zero counters, both timestamps set to now. -/
def defaultOverallStats (now : String) : OverallStats :=
  { total_messages_analyzed := 0
    total_messages_flagged := 0
    total_false_alarms := 0
    first_started := now
    last_updated := now }

/-- Model of `StatsTracker._save_overall_stats`: stamp `last_updated`
with the current time (this mutation happens before the write and thus
also on a failed write), then rewrite the whole file; a write error is
caught and leaves the file as it was. -/
def save_overall_stats (stats : OverallStats) (file : Option OverallStats)
    (now : String) (ioOk : Bool) : OverallStats × Option OverallStats :=
  let stats' := { stats with last_updated := now }
  (stats', if ioOk then some stats' else file)

/-- Model of `StatsTracker._load_overall_stats`: read the file when it
exists (a read error is caught and falls back to a fresh record without
touching the file); when absent, create a fresh record and save it. -/
def load_overall_stats (file : Option OverallStats) (now : String)
    (ioOk : Bool) : OverallStats × Option OverallStats :=
  match file with
  | some s => if ioOk then (s, some s) else (defaultOverallStats now, some s)
  | none => save_overall_stats (defaultOverallStats now) none now ioOk

/-- The in-memory state of a `StatsTracker`: session start time (seconds),
the two session counters, and the cached overall stats record. -/
structure StatsTracker where
  session_start_time : ℚ
  session_messages_analyzed : Nat
  session_messages_flagged : Nat
  overall_stats : OverallStats
deriving DecidableEq, Repr

/-- Model of `StatsTracker.increment_analyzed`: bump the session and
overall analyzed counters by one and flush the overall record. -/
def increment_analyzed (t : StatsTracker) (file : Option OverallStats)
    (now : String) (ioOk : Bool) : StatsTracker × Option OverallStats :=
  let overall :=
    { t.overall_stats with
        total_messages_analyzed := t.overall_stats.total_messages_analyzed + 1 }
  let (overall', file') := save_overall_stats overall file now ioOk
  ({ t with
      session_messages_analyzed := t.session_messages_analyzed + 1
      overall_stats := overall' }, file')

/-- Model of `StatsTracker.increment_flagged`: bump the session and
overall flagged counters by one and flush the overall record. -/
def increment_flagged (t : StatsTracker) (file : Option OverallStats)
    (now : String) (ioOk : Bool) : StatsTracker × Option OverallStats :=
  let overall :=
    { t.overall_stats with
        total_messages_flagged := t.overall_stats.total_messages_flagged + 1 }
  let (overall', file') := save_overall_stats overall file now ioOk
  ({ t with
      session_messages_flagged := t.session_messages_flagged + 1
      overall_stats := overall' }, file')

/-- Model of `StatsTracker.increment_false_alarm`: bump the overall
false-alarm counter by one (no session counter) and flush. -/
def increment_false_alarm (t : StatsTracker) (file : Option OverallStats)
    (now : String) (ioOk : Bool) : StatsTracker × Option OverallStats :=
  let overall :=
    { t.overall_stats with
        total_false_alarms := t.overall_stats.total_false_alarms + 1 }
  let (overall', file') := save_overall_stats overall file now ioOk
  ({ t with overall_stats := overall' }, file')

/-- Model of `StatsTracker.get_session_messages_per_hour`: uptime in
hours is `(now - session_start_time) / 3600` seconds; below the 0.01
hour guard the method returns 0.0, otherwise analyzed divided by hours. -/
def get_session_messages_per_hour (t : StatsTracker) (now : ℚ) : ℚ :=
  let hours := (now - t.session_start_time) / 3600
  if hours < 1 / 100 then 0
  else (t.session_messages_analyzed : ℚ) / hours

/-- Model of `StatsTracker.get_overall_accuracy_estimate`: 100 when
nothing was flagged; otherwise true positives are flagged minus false
alarms, floored at zero, as a percentage of flagged. -/
def get_overall_accuracy_estimate (t : StatsTracker) : ℚ :=
  let flagged := t.overall_stats.total_messages_flagged
  if flagged = 0 then 100
  else
    let false_alarms := t.overall_stats.total_false_alarms
    let true_positives : ℤ := (flagged : ℤ) - (false_alarms : ℤ)
    let true_positives := if true_positives < 0 then 0 else true_positives
    ((true_positives : ℚ) / (flagged : ℚ)) * 100

/-! ### System state and trace interpretation

The local durable state the pipeline can affect, and how each recorded
call event acts on it.  The moderation cog constructs a `DatasetLogger`
but no `StatsTracker`, so no event touches the tracker or the stats
file; delete, DM and audit calls act on the platform, not on local
state. -/

/-- Local durable state: the CSV dataset file, the stats JSON file, and
the in-memory stats tracker. -/
structure SysState where
  dataset : Option (List FlaggedRow)
  stats_file : Option OverallStats
  tracker : StatsTracker
deriving Repr

/-- Effect of one recorded call on local state: a dataset append adds
its row to the CSV file (the successful-write path of
`log_flagged_message`); every other call is platform-side. -/
def applyEvent (s : SysState) (e : Event) : SysState :=
  match e with
  | .datasetAppend row => { s with dataset := some (s.dataset.getD [] ++ [row]) }
  | _ => s

/-- Run a trace of calls over the local state. -/
def runTrace (s : SysState) (tr : List Event) : SysState :=
  tr.foldl applyEvent s

/-! ### Concrete sample data, used to instantiate the theorems -/

/-- A guild member with no whitelisted role. -/
def sampleMember : MemberInfo :=
  { roles := ["everyone"], joined_at := some "2024-01-01 10:00:00 MST" }

/-- A plain guild message from a non-bot, non-whitelisted author. -/
def sampleMsg : Message :=
  { author_bot := false
    content := "free nitro giveaway"
    member := some sampleMember
    author_id := 42
    author_name := "alice"
    author_discriminator := "0"
    guild := some (1, "TestGuild")
    channel_id := 7
    channel_name := some "general"
    message_id := 99
    created_at_local := "2025-01-01 12:00:00 MST" }

/-- An environment where the detector returns a positive verdict and
every platform call succeeds. -/
def sampleEnv : Env :=
  { commandPrefix := "!"
    detOutcome := Except.ok (true, 9 / 10, "ML Detection")
    deleteOutcome := CallOutcome.ok
    dmOutcome := CallOutcome.ok
    logChannelFound := true
    modRoleFound := true
    now := "2025-01-01 12:00:05 MST" }

/-- The same environment with a negative detector verdict. -/
def envClean : Env :=
  { sampleEnv with detOutcome := Except.ok (false, 1 / 100, "Clean") }

/-- A fresh stats tracker with zero counters. -/
def sampleTracker : StatsTracker :=
  { session_start_time := 0
    session_messages_analyzed := 0
    session_messages_flagged := 0
    overall_stats := defaultOverallStats "2025-01-01 00:00:00 MST" }

/-- Initial local state: empty dataset file, fresh stats file and tracker. -/
def sampleState : SysState :=
  { dataset := some []
    stats_file := some (defaultOverallStats "2025-01-01 00:00:00 MST")
    tracker := sampleTracker }

/-- A tracker whose reported false alarms exceed its flagged count. -/
def overFlaggedTracker : StatsTracker :=
  { sampleTracker with
      overall_stats :=
        { defaultOverallStats "2025-01-01 00:00:00 MST" with
            total_messages_analyzed := 10
            total_messages_flagged := 2
            total_false_alarms := 5 } }

/-- A tracker that has analyzed five messages since session start. -/
def busyTracker : StatsTracker :=
  { sampleTracker with session_messages_analyzed := 5 }

/-! ### Helper lemmas -/

/-- No call event other than a dataset append changes local state. -/
theorem applyEvent_of_not_append (s : SysState) (e : Event)
    (h : ∀ r, e ≠ Event.datasetAppend r) : applyEvent s e = s := by
  cases e with
  | datasetAppend r => exact absurd rfl (h r)
  | detectCall t => rfl
  | deleteCall i => rfl
  | dmSend g => rfl
  | auditSend a => rfl

/-- A trace with no dataset append leaves local state unchanged. -/
theorem runTrace_of_no_append (s : SysState) (tr : List Event)
    (h : ∀ r, Event.datasetAppend r ∉ tr) : runTrace s tr = s := by
  induction tr generalizing s with
  | nil => rfl
  | cons e rest ih =>
      have he : ∀ r, e ≠ Event.datasetAppend r := by
        intro r hr
        exact h r (by simp [hr])
      have hrest : ∀ r, Event.datasetAppend r ∉ rest := by
        intro r hr
        exact h r (by simp [hr])
      show runTrace (applyEvent s e) rest = s
      rw [applyEvent_of_not_append s e he]
      exact ih s hrest

/-- No event changes the in-memory stats tracker. -/
theorem applyEvent_tracker (s : SysState) (e : Event) :
    (applyEvent s e).tracker = s.tracker := by
  cases e <;> rfl

/-- No event changes the stats file. -/
theorem applyEvent_stats_file (s : SysState) (e : Event) :
    (applyEvent s e).stats_file = s.stats_file := by
  cases e <;> rfl

/-- Running any trace leaves the stats tracker unchanged. -/
theorem runTrace_tracker (s : SysState) (tr : List Event) :
    (runTrace s tr).tracker = s.tracker := by
  induction tr generalizing s with
  | nil => rfl
  | cons e rest ih =>
      show (runTrace (applyEvent s e) rest).tracker = s.tracker
      rw [ih, applyEvent_tracker]

/-- Running any trace leaves the stats file unchanged. -/
theorem runTrace_stats_file (s : SysState) (tr : List Event) :
    (runTrace s tr).stats_file = s.stats_file := by
  induction tr generalizing s with
  | nil => rfl
  | cons e rest ih =>
      show (runTrace (applyEvent s e) rest).stats_file = s.stats_file
      rw [ih, applyEvent_stats_file]

/-- The DM notification never performs a dataset append. -/
theorem append_not_mem_notification (env : Env) (msg : Message) (r : FlaggedRow) :
    Event.datasetAppend r ∉ send_user_notification env msg := by
  unfold send_user_notification
  cases msg.guild with
  | none => simp
  | some g => cases env.dmOutcome <;> simp

/-- The audit log never performs a dataset append. -/
theorem append_not_mem_send_log (env : Env) (msg : Message) (joined_at : String)
    (confidence : ℚ) (reason : String) (r : FlaggedRow) :
    Event.datasetAppend r ∉ send_log env msg joined_at confidence reason := by
  unfold send_log
  by_cases h : env.logChannelFound <;> simp [h]
  cases msg.guild <;> simp

/-! ### Claim theorems -/

/-- C4: for every message whose author's role set intersects the
whitelist, `on_message` returns without invoking the detector and
without performing any side effect: the call trace is empty and the
local state (dataset file, stats file, tracker counters) is unchanged. -/
theorem claim4_whitelisted_role_skips_everything (env : Env) (msg : Message)
    (st : SysState) (h : has_whitelisted_role msg = true) :
    on_message env msg = [] ∧ runTrace st (on_message env msg) = st := by
  have htr : on_message env msg = [] := by
    simp [on_message, h]
  exact ⟨htr, by rw [htr]; rfl⟩

/-- A message from an author holding the whitelisted "Moderator" role. -/
def modMsg : Message :=
  { sampleMsg with
      member := some { roles := ["Moderator"], joined_at := some "2024-01-01 10:00:00 MST" } }

/-- Witness for C4 at a concrete moderator message. -/
theorem claim4_witness :
    on_message sampleEnv modMsg = [] ∧
    runTrace sampleState (on_message sampleEnv modMsg) = sampleState :=
  claim4_whitelisted_role_skips_everything sampleEnv modMsg sampleState (by decide)

/-- C5: when the detector raises, `on_message` catches the failure and
treats the message as not scam: the trace holds only the detector
invocation — no deletion, no DM, no audit message, no dataset append —
and local state is unchanged.  `on_message` is a total function, so no
failure propagates to later messages. -/
theorem claim5_detector_error_fail_open (env : Env) (msg : Message)
    (st : SysState) (e : String)
    (hbot : msg.author_bot = false)
    (hcmd : startswith msg.content env.commandPrefix = false)
    (hwl : has_whitelisted_role msg = false)
    (hdet : env.detOutcome = Except.error e) :
    on_message env msg = [Event.detectCall msg.content] ∧
    runTrace st (on_message env msg) = st := by
  have htr : on_message env msg = [Event.detectCall msg.content] := by
    simp [on_message, hbot, hcmd, hwl, hdet]
  exact ⟨htr, by rw [htr]; rfl⟩

/-- An environment in which the detector raises an exception. -/
def errEnv : Env := { sampleEnv with detOutcome := Except.error "model failure" }

/-- Witness for C5 at a concrete message and raising detector. -/
theorem claim5_witness :
    on_message errEnv sampleMsg = [Event.detectCall sampleMsg.content] ∧
    runTrace sampleState (on_message errEnv sampleMsg) = sampleState :=
  claim5_detector_error_fail_open errEnv sampleMsg sampleState "model failure"
    (by decide) (by decide) (by decide) rfl

/-- C9: saving the aggregate stats record and reloading it from the
file yields identical counters and the same `first_started`; the
persisted record differs from the in-memory one only in `last_updated`;
`first_started` is set exactly once, when the file is first created,
and no save ever changes it. -/
theorem claim9_stats_persist_reload (st : OverallStats) (file : Option OverallStats)
    (now now' : String) :
    ((load_overall_stats (save_overall_stats st file now true).2 now' true).1.total_messages_analyzed
        = st.total_messages_analyzed ∧
     (load_overall_stats (save_overall_stats st file now true).2 now' true).1.total_messages_flagged
        = st.total_messages_flagged ∧
     (load_overall_stats (save_overall_stats st file now true).2 now' true).1.total_false_alarms
        = st.total_false_alarms ∧
     (load_overall_stats (save_overall_stats st file now true).2 now' true).1.first_started
        = st.first_started) ∧
    (save_overall_stats st file now true).2 = some { st with last_updated := now } ∧
    (load_overall_stats none now true).1.first_started = now ∧
    (∀ ok : Bool, (save_overall_stats st file now ok).1.first_started = st.first_started) ∧
    (∀ s : OverallStats, load_overall_stats (some s) now' true = (s, some s)) :=
  ⟨⟨rfl, rfl, rfl, rfl⟩, rfl, rfl, fun _ => rfl, fun _ => rfl⟩

/-- C10: the session messages-per-hour metric returns exactly 0 when
uptime is under 36 seconds (0.01 hours), guarding the division; for
uptime of at least 36 seconds it divides the session analyzed count by
the uptime in hours, whose value is then provably nonzero. -/
theorem claim10_messages_per_hour_guard (t : StatsTracker) (now : ℚ) :
    (now - t.session_start_time < 36 → get_session_messages_per_hour t now = 0) ∧
    (36 ≤ now - t.session_start_time →
      get_session_messages_per_hour t now =
        (t.session_messages_analyzed : ℚ) / ((now - t.session_start_time) / 3600) ∧
      (now - t.session_start_time) / 3600 ≠ 0) := by
  have key : (now - t.session_start_time) / 3600 < 1 / 100 ↔
      now - t.session_start_time < 36 := by
    rw [div_lt_iff₀ (by norm_num : (0 : ℚ) < 3600)]
    norm_num
  constructor
  · intro h
    simp only [get_session_messages_per_hour]
    rw [if_pos (key.mpr h)]
  · intro h
    have h36 : ¬ (now - t.session_start_time) / 3600 < 1 / 100 := by
      rw [key]
      exact not_lt.mpr h
    have hpos : (0 : ℚ) < now - t.session_start_time :=
      lt_of_lt_of_le (by norm_num) h
    constructor
    · simp only [get_session_messages_per_hour]
      rw [if_neg h36]
    · exact div_ne_zero (ne_of_gt hpos) (by norm_num)

/-- Witness for C10: guard returns 0 at 10 seconds of uptime, and the
division form at 2 hours of uptime. -/
theorem claim10_witness :
    get_session_messages_per_hour busyTracker 10 = 0 ∧
    get_session_messages_per_hour busyTracker 7200 =
      (busyTracker.session_messages_analyzed : ℚ) /
        ((7200 - busyTracker.session_start_time) / 3600) :=
  ⟨(claim10_messages_per_hour_guard busyTracker 10).1 (by norm_num [busyTracker, sampleTracker]),
   ((claim10_messages_per_hour_guard busyTracker 7200).2
      (by norm_num [busyTracker, sampleTracker])).1⟩

/-- C8: the overall accuracy estimate is 100 when nothing was flagged;
otherwise it equals the false-alarm-adjusted true-positive count,
clamped below at zero, as a percentage of the flagged count; the result
is never negative, even when false alarms exceed flagged. -/
theorem claim8_accuracy_estimate (t : StatsTracker) :
    (t.overall_stats.total_messages_flagged = 0 →
      get_overall_accuracy_estimate t = 100) ∧
    (t.overall_stats.total_messages_flagged ≠ 0 →
      get_overall_accuracy_estimate t =
        max 0 ((t.overall_stats.total_messages_flagged : ℚ) -
            (t.overall_stats.total_false_alarms : ℚ)) /
          (t.overall_stats.total_messages_flagged : ℚ) * 100) ∧
    0 ≤ get_overall_accuracy_estimate t := by
  have hform : t.overall_stats.total_messages_flagged ≠ 0 →
      get_overall_accuracy_estimate t =
        max 0 ((t.overall_stats.total_messages_flagged : ℚ) -
            (t.overall_stats.total_false_alarms : ℚ)) /
          (t.overall_stats.total_messages_flagged : ℚ) * 100 := by
    intro h
    have hcast : ((max 0 ((t.overall_stats.total_messages_flagged : ℤ) -
        (t.overall_stats.total_false_alarms : ℤ)) : ℤ) : ℚ) =
        max 0 ((t.overall_stats.total_messages_flagged : ℚ) -
          (t.overall_stats.total_false_alarms : ℚ)) := by
      push_cast
      ring_nf
    have hif : (if ((t.overall_stats.total_messages_flagged : ℤ) -
          (t.overall_stats.total_false_alarms : ℤ)) < 0 then (0 : ℤ)
        else (t.overall_stats.total_messages_flagged : ℤ) -
          (t.overall_stats.total_false_alarms : ℤ)) =
        max 0 ((t.overall_stats.total_messages_flagged : ℤ) -
          (t.overall_stats.total_false_alarms : ℤ)) := by
      rcases lt_or_le ((t.overall_stats.total_messages_flagged : ℤ) -
          (t.overall_stats.total_false_alarms : ℤ)) 0 with hlt | hle
      · rw [if_pos hlt]
        exact (max_eq_left hlt.le).symm
      · rw [if_neg (not_lt.mpr hle), max_eq_right hle]
    simp only [get_overall_accuracy_estimate, if_neg h, hif, hcast]
  refine ⟨?_, hform, ?_⟩
  · intro h
    simp only [get_overall_accuracy_estimate, if_pos h]
  · by_cases h : t.overall_stats.total_messages_flagged = 0
    · simp only [get_overall_accuracy_estimate, if_pos h]
      norm_num
    · rw [hform h]
      have hnum : (0 : ℚ) ≤ max 0 ((t.overall_stats.total_messages_flagged : ℚ) -
          (t.overall_stats.total_false_alarms : ℚ)) := le_max_left 0 _
      have hden : (0 : ℚ) ≤ (t.overall_stats.total_messages_flagged : ℚ) :=
        Nat.cast_nonneg _
      exact mul_nonneg (div_nonneg hnum hden) (by norm_num)

/-- C2: on a positive verdict the dataset append is invoked before the
platform delete call (trace order), exactly one dataset record is
produced — the run over local state appends a single row — and that
row's identity fields, confidence and reason match the input message
and the detector output. -/
theorem claim2_dataset_append_before_delete (env : Env) (msg : Message)
    (conf : ℚ) (reason : String) (st : SysState)
    (hbot : msg.author_bot = false)
    (hcmd : startswith msg.content env.commandPrefix = false)
    (hwl : has_whitelisted_role msg = false)
    (hdet : env.detOutcome = Except.ok (true, conf, reason)) :
    ∃ rest,
      on_message env msg =
        Event.detectCall msg.content ::
        Event.datasetAppend (buildRow env msg conf reason (joined_at_of msg)) ::
        Event.deleteCall msg.message_id :: rest ∧
      (∀ r : FlaggedRow, Event.datasetAppend r ∉ rest) ∧
      (runTrace st (on_message env msg)).dataset =
        some (st.dataset.getD [] ++ [buildRow env msg conf reason (joined_at_of msg)]) ∧
      (buildRow env msg conf reason (joined_at_of msg)).user_id = toString msg.author_id ∧
      (buildRow env msg conf reason (joined_at_of msg)).message_id = toString msg.message_id ∧
      (buildRow env msg conf reason (joined_at_of msg)).message_content = msg.content ∧
      (buildRow env msg conf reason (joined_at_of msg)).confidence = conf ∧
      (buildRow env msg conf reason (joined_at_of msg)).detection_reason = reason := by
  have hmain : on_message env msg =
      Event.detectCall msg.content :: handle_scam_message env msg conf reason := by
    simp [on_message, hbot, hcmd, hwl, hdet]
  have hscam : ∃ rest, handle_scam_message env msg conf reason =
      Event.datasetAppend (buildRow env msg conf reason (joined_at_of msg)) ::
      Event.deleteCall msg.message_id :: rest ∧
      ∀ r : FlaggedRow, Event.datasetAppend r ∉ rest := by
    cases hdo : env.deleteOutcome with
    | ok =>
        refine ⟨send_user_notification env msg ++
          send_log env msg (joined_at_of msg) conf reason, ?_, ?_⟩
        · simp [handle_scam_message, hdo]
        · intro r hr
          rcases List.mem_append.mp hr with h1 | h2
          · exact append_not_mem_notification env msg r h1
          · exact append_not_mem_send_log env msg (joined_at_of msg) conf reason r h2
    | forbidden =>
        refine ⟨[], ?_, by simp⟩
        simp [handle_scam_message, hdo]
    | err =>
        refine ⟨[], ?_, by simp⟩
        simp [handle_scam_message, hdo]
  obtain ⟨rest, hrest, hnone⟩ := hscam
  refine ⟨rest, ?_, hnone, ?_, rfl, rfl, rfl, rfl, rfl⟩
  · rw [hmain, hrest]
  · rw [hmain, hrest]
    show (runTrace
      { st with dataset := some (st.dataset.getD [] ++
          [buildRow env msg conf reason (joined_at_of msg)]) } rest).dataset = _
    rw [runTrace_of_no_append _ rest hnone]

/-- Witness for C2 at the sample message and all-success environment. -/
theorem claim2_witness :
    ∃ rest,
      on_message sampleEnv sampleMsg =
        Event.detectCall sampleMsg.content ::
        Event.datasetAppend
          (buildRow sampleEnv sampleMsg (9 / 10) "ML Detection" (joined_at_of sampleMsg)) ::
        Event.deleteCall sampleMsg.message_id :: rest ∧
      (∀ r : FlaggedRow, Event.datasetAppend r ∉ rest) ∧
      (runTrace sampleState (on_message sampleEnv sampleMsg)).dataset =
        some (sampleState.dataset.getD [] ++
          [buildRow sampleEnv sampleMsg (9 / 10) "ML Detection" (joined_at_of sampleMsg)]) ∧
      (buildRow sampleEnv sampleMsg (9 / 10) "ML Detection" (joined_at_of sampleMsg)).user_id =
        toString sampleMsg.author_id ∧
      (buildRow sampleEnv sampleMsg (9 / 10) "ML Detection" (joined_at_of sampleMsg)).message_id =
        toString sampleMsg.message_id ∧
      (buildRow sampleEnv sampleMsg (9 / 10) "ML Detection" (joined_at_of sampleMsg)).message_content =
        sampleMsg.content ∧
      (buildRow sampleEnv sampleMsg (9 / 10) "ML Detection" (joined_at_of sampleMsg)).confidence =
        9 / 10 ∧
      (buildRow sampleEnv sampleMsg (9 / 10) "ML Detection" (joined_at_of sampleMsg)).detection_reason =
        "ML Detection" :=
  claim2_dataset_append_before_delete sampleEnv sampleMsg (9 / 10) "ML Detection" sampleState
    (by decide) (by decide) (by decide) rfl

/-- C3: when the delete call fails — with a permission error or any
other error — the response sequence is aborted after the delete: the
trace is exactly detector call, dataset append, delete call, with no DM
send and no audit-log send for that message. -/
theorem claim3_delete_failure_aborts (env : Env) (msg : Message)
    (conf : ℚ) (reason : String)
    (hbot : msg.author_bot = false)
    (hcmd : startswith msg.content env.commandPrefix = false)
    (hwl : has_whitelisted_role msg = false)
    (hdet : env.detOutcome = Except.ok (true, conf, reason))
    (hdel : env.deleteOutcome = CallOutcome.forbidden ∨
            env.deleteOutcome = CallOutcome.err) :
    on_message env msg =
      [Event.detectCall msg.content,
       Event.datasetAppend (buildRow env msg conf reason (joined_at_of msg)),
       Event.deleteCall msg.message_id] ∧
    (∀ g : String, Event.dmSend g ∉ on_message env msg) ∧
    (∀ a : AuditEntry, Event.auditSend a ∉ on_message env msg) := by
  have htr : on_message env msg =
      [Event.detectCall msg.content,
       Event.datasetAppend (buildRow env msg conf reason (joined_at_of msg)),
       Event.deleteCall msg.message_id] := by
    rcases hdel with h | h <;>
      simp [on_message, handle_scam_message, hbot, hcmd, hwl, hdet, h]
  refine ⟨htr, ?_, ?_⟩
  · intro g
    rw [htr]
    simp
  · intro a
    rw [htr]
    simp

/-- An environment where the bot lacks permission to delete messages. -/
def forbiddenEnv : Env := { sampleEnv with deleteOutcome := CallOutcome.forbidden }

/-- Witness for C3 at the sample message with a forbidden delete. -/
theorem claim3_witness :
    on_message forbiddenEnv sampleMsg =
      [Event.detectCall sampleMsg.content,
       Event.datasetAppend
         (buildRow forbiddenEnv sampleMsg (9 / 10) "ML Detection" (joined_at_of sampleMsg)),
       Event.deleteCall sampleMsg.message_id] ∧
    (∀ g : String, Event.dmSend g ∉ on_message forbiddenEnv sampleMsg) ∧
    (∀ a : AuditEntry, Event.auditSend a ∉ on_message forbiddenEnv sampleMsg) :=
  claim3_delete_failure_aborts forbiddenEnv sampleMsg (9 / 10) "ML Detection"
    (by decide) (by decide) (by decide) rfl (Or.inl rfl)

/-- C6: a DM failure is swallowed and changes nothing downstream: the
whole call trace — in particular the audit-log send and its content —
is identical to the trace in which the DM succeeds, and the audit-log
call does occur, with the entry built from the message, the verdict and
the environment, independently of the DM outcome. -/
theorem claim6_dm_failure_isolated (env : Env) (msg : Message)
    (conf : ℚ) (reason : String) (d : CallOutcome) (g : Nat) (gname : String)
    (hbot : msg.author_bot = false)
    (hcmd : startswith msg.content env.commandPrefix = false)
    (hwl : has_whitelisted_role msg = false)
    (hdet : env.detOutcome = Except.ok (true, conf, reason))
    (hdel : env.deleteOutcome = CallOutcome.ok)
    (hchan : env.logChannelFound = true)
    (hguild : msg.guild = some (g, gname)) :
    on_message { env with dmOutcome := d } msg =
      on_message { env with dmOutcome := CallOutcome.ok } msg ∧
    Event.auditSend (buildAuditEntry env msg (joined_at_of msg) conf reason)
      ∈ on_message { env with dmOutcome := d } msg := by
  have h1 : ∀ d' : CallOutcome, on_message { env with dmOutcome := d' } msg =
      [Event.detectCall msg.content,
       Event.datasetAppend (buildRow env msg conf reason (joined_at_of msg)),
       Event.deleteCall msg.message_id,
       Event.dmSend gname,
       Event.auditSend (buildAuditEntry env msg (joined_at_of msg) conf reason)] := by
    intro d'
    cases d' <;>
      simp [on_message, handle_scam_message, send_user_notification, send_log,
        buildRow, buildAuditEntry, hbot, hcmd, hwl, hdet, hdel, hchan, hguild]
  refine ⟨(h1 d).trans (h1 CallOutcome.ok).symm, ?_⟩
  rw [h1 d]
  simp

/-- An environment where the author's DMs are closed. -/
def dmClosedEnv : Env := { sampleEnv with dmOutcome := CallOutcome.forbidden }

/-- Witness for C6 at the sample message with DMs closed. -/
theorem claim6_witness :
    on_message { dmClosedEnv with dmOutcome := CallOutcome.forbidden } sampleMsg =
      on_message { dmClosedEnv with dmOutcome := CallOutcome.ok } sampleMsg ∧
    Event.auditSend
        (buildAuditEntry dmClosedEnv sampleMsg (joined_at_of sampleMsg) (9 / 10) "ML Detection")
      ∈ on_message { dmClosedEnv with dmOutcome := CallOutcome.forbidden } sampleMsg :=
  claim6_dm_failure_isolated dmClosedEnv sampleMsg (9 / 10) "ML Detection"
    CallOutcome.forbidden 1 "TestGuild"
    (by decide) (by decide) (by decide) rfl rfl rfl rfl

/-- Witness for C8 at a tracker with 2 flagged and 5 false alarms: the
clamped form applies and the estimate is nonnegative. -/
theorem claim8_witness :
    get_overall_accuracy_estimate overFlaggedTracker =
      max 0 ((overFlaggedTracker.overall_stats.total_messages_flagged : ℚ) -
          (overFlaggedTracker.overall_stats.total_false_alarms : ℚ)) /
        (overFlaggedTracker.overall_stats.total_messages_flagged : ℚ) * 100 ∧
    0 ≤ get_overall_accuracy_estimate overFlaggedTracker :=
  ⟨(claim8_accuracy_estimate overFlaggedTracker).2.1 (by decide),
   (claim8_accuracy_estimate overFlaggedTracker).2.2⟩

/-- The inputs of one `log_flagged_message` call: the flagged message,
the detector confidence and reason, and the formatted join date. -/
structure FlagInput where
  msg : Message
  confidence : ℚ
  reason : String
  user_joined_at : String

/-- Append a sequence of flagged-message records to the dataset file,
one `log_flagged_message` call per record. -/
def logAll (env : Env) (file : Option (List FlaggedRow))
    (inputs : List FlagInput) : Option (List FlaggedRow) :=
  inputs.foldl
    (fun f i => log_flagged_message f env i.msg i.confidence i.reason i.user_joined_at)
    file

/-- Total of the occurrence counts of a detection-method breakdown. -/
def sumCounts (m : List (String × Nat)) : Nat := (m.map Prod.snd).sum

/-- One tally step adds exactly one to the total of the breakdown. -/
theorem sumCounts_bumpCount (m : List (String × Nat)) (k : String) :
    sumCounts (bumpCount m k) = sumCounts m + 1 := by
  induction m with
  | nil => rfl
  | cons p rest ih =>
      obtain ⟨k', v⟩ := p
      by_cases h : k' = k
      · simp only [bumpCount, if_pos h, sumCounts, List.map_cons, List.sum_cons]
        omega
      · simp only [bumpCount, if_neg h, sumCounts, List.map_cons, List.sum_cons] at *
        omega

/-- The breakdown fold adds the row count to the running total. -/
theorem sumCounts_foldl (rows : List FlaggedRow) (m : List (String × Nat)) :
    sumCounts (rows.foldl (fun acc r => bumpCount acc r.detection_reason) m) =
      sumCounts m + rows.length := by
  induction rows generalizing m with
  | nil => simp
  | cons r rest ih =>
      simp only [List.foldl_cons, List.length_cons, ih, sumCounts_bumpCount]
      omega

/-- Appending to an existing file appends the built rows in order. -/
theorem logAll_some (env : Env) (rows : List FlaggedRow) (inputs : List FlagInput) :
    logAll env (some rows) inputs =
      some (rows ++ inputs.map
        (fun i => buildRow env i.msg i.confidence i.reason i.user_joined_at)) := by
  induction inputs generalizing rows with
  | nil => simp [logAll]
  | cons i rest ih =>
      show logAll env
        (log_flagged_message (some rows) env i.msg i.confidence i.reason i.user_joined_at)
        rest = _
      rw [show log_flagged_message (some rows) env i.msg i.confidence i.reason i.user_joined_at
            = some (rows ++ [buildRow env i.msg i.confidence i.reason i.user_joined_at])
          from rfl]
      rw [ih]
      simp

/-- C7: starting from a freshly created dataset store (header only),
appending N records and reading the stats yields an existing file with
`total_messages = N` and a detection-method breakdown whose counts sum
to N. -/
theorem claim7_dataset_roundtrip (env : Env) (inputs : List FlagInput) :
    (get_dataset_stats (logAll env (initialize_csv none) inputs)).file_present = true ∧
    (get_dataset_stats (logAll env (initialize_csv none) inputs)).total_messages
      = inputs.length ∧
    sumCounts (get_dataset_stats (logAll env (initialize_csv none) inputs)).detection_methods
      = inputs.length := by
  rw [show initialize_csv none = some ([] : List FlaggedRow) from rfl,
    logAll_some env [] inputs]
  refine ⟨rfl, by simp [get_dataset_stats], ?_⟩
  simp only [get_dataset_stats, List.nil_append, detectionMethodBreakdown]
  rw [sumCounts_foldl]
  simp [sumCounts]

/-- C1 counterexample: a concrete non-exempt message that reaches the
Detection Port (the trace opens with the detector call) after which the
session and aggregate analyzed counters have not increased by 1, and a
positive-verdict run after which the session flagged counter has not
increased by 1: the pipeline never invokes the stats tracker. -/
theorem claim1_counterexample :
    on_message envClean sampleMsg = [Event.detectCall sampleMsg.content] ∧
    (runTrace sampleState (on_message envClean sampleMsg)).tracker.session_messages_analyzed ≠
      sampleState.tracker.session_messages_analyzed + 1 ∧
    (runTrace sampleState (on_message envClean sampleMsg)).tracker.overall_stats.total_messages_analyzed ≠
      sampleState.tracker.overall_stats.total_messages_analyzed + 1 ∧
    (runTrace sampleState (on_message sampleEnv sampleMsg)).tracker.session_messages_flagged ≠
      sampleState.tracker.session_messages_flagged + 1 := by
  refine ⟨by decide, ?_, ?_, ?_⟩
  · rw [runTrace_tracker]
    decide
  · rw [runTrace_tracker]
    decide
  · rw [runTrace_tracker]
    decide

/-- C1 amended: handling a message never changes the stats tracker or
the stats file — the moderation cog holds no tracker, so no counter
moves on any verdict — while the tracker's own increment operations,
when invoked, add exactly 1 to their session and aggregate counter and
leave the other counter pair unchanged. -/
theorem claim1_pipeline_never_touches_counters (env : Env) (msg : Message)
    (st : SysState) (t : StatsTracker) (file : Option OverallStats)
    (now : String) (ok : Bool) :
    ((runTrace st (on_message env msg)).tracker = st.tracker ∧
     (runTrace st (on_message env msg)).stats_file = st.stats_file) ∧
    ((increment_analyzed t file now ok).1.session_messages_analyzed
        = t.session_messages_analyzed + 1 ∧
     (increment_analyzed t file now ok).1.overall_stats.total_messages_analyzed
        = t.overall_stats.total_messages_analyzed + 1 ∧
     (increment_analyzed t file now ok).1.session_messages_flagged
        = t.session_messages_flagged ∧
     (increment_analyzed t file now ok).1.overall_stats.total_messages_flagged
        = t.overall_stats.total_messages_flagged) ∧
    ((increment_flagged t file now ok).1.session_messages_flagged
        = t.session_messages_flagged + 1 ∧
     (increment_flagged t file now ok).1.overall_stats.total_messages_flagged
        = t.overall_stats.total_messages_flagged + 1 ∧
     (increment_flagged t file now ok).1.session_messages_analyzed
        = t.session_messages_analyzed ∧
     (increment_flagged t file now ok).1.overall_stats.total_messages_analyzed
        = t.overall_stats.total_messages_analyzed) :=
  ⟨⟨runTrace_tracker st _, runTrace_stats_file st _⟩,
   ⟨rfl, rfl, rfl, rfl⟩, ⟨rfl, rfl, rfl, rfl⟩⟩

end SpamBot
